import Mathlib

/-!
Verification development for OpenSH (`opsh.py`), an interactive shell
wrapper that classifies each input line as a literal shell command or a
natural-language request, translates requests through a remote model,
and executes the result.

The Python source is shallowly embedded below.  Python strings are
modelled as Lean `String` and string methods (`lower`, `startswith`,
`strip`, slicing, `split`) are reimplemented over the character list
(`String.data`) so that every definition is executable and reduces in
the kernel.  External effects (the network call, the subprocess, the
OS `chdir` / `expanduser` / `expandvars`) are modelled by explicit
oracles or function parameters; the control flow around them is taken
verbatim from the source.
-/

/-- Model of Python `s.lower()`.  `Char.toLower` lowers the ASCII range,
which matches `str.lower` on all strings appearing in the program. -/
def pyLower (s : String) : String :=
  String.mk (s.data.map Char.toLower)

/-- Model of Python `s.startswith(pre)`. -/
def pyStartsWith (s pre : String) : Bool :=
  pre.data.isPrefixOf s.data

/-- Model of Python slicing `s[:n]`. -/
def pyTake (s : String) (n : Nat) : String :=
  String.mk (s.data.take n)

/-- Model of Python slicing `s[n:]`. -/
def pyDrop (s : String) (n : Nat) : String :=
  String.mk (s.data.drop n)

/-- Model of Python `s.strip(c)` for a single-character argument:
remove every leading and trailing occurrence of `c`. -/
def pyStripChar (c : Char) (s : String) : String :=
  String.mk (((s.data.dropWhile (· = c)).reverse.dropWhile (· = c)).reverse)

/-- Model of Python `s.strip()`: remove leading and trailing whitespace. -/
def pyStripWS (s : String) : String :=
  String.mk (((s.data.dropWhile Char.isWhitespace).reverse.dropWhile
    Char.isWhitespace).reverse)

/-- Splits a character list at every occurrence of `c`, keeping empty
segments, as Python `s.split(c)` does. -/
def splitOnChar (c : Char) : List Char → List (List Char)
  | [] => [[]]
  | x :: xs =>
    match splitOnChar c xs with
    | [] => [[]]
    | g :: gs => if x = c then [] :: g :: gs else (x :: g) :: gs

/-- Model of Python `s.split(sep)` for a one-character separator. -/
def pySplitOn (c : Char) (s : String) : List String :=
  (splitOnChar c s.data).map String.mk

/-- Platform family, the result of `platform.system()` resolution in
`get_platform_info` (`opsh.py` lines 40-65). -/
inductive PlatformName where
  | Windows
  | macOS
  | Linux
deriving DecidableEq, Repr

/-- `PLATFORM` descriptor from `get_platform_info` (lines 40-63); the
`home` field is environment data and is kept out of the pure model. -/
structure PlatformInfo where
  name : PlatformName
  shell : String
  path_sep : String
deriving DecidableEq, Repr

/-- `get_platform_info` (lines 40-63), with the `platform.system()`
string as explicit input; any unrecognized kernel falls back to Linux. -/
def get_platform_info (system : String) : PlatformInfo :=
  if system = "Windows" then ⟨.Windows, "PowerShell", "\\"⟩
  else if system = "Darwin" then ⟨.macOS, "zsh", "/"⟩
  else ⟨.Linux, "bash", "/"⟩

/-- The exit-keyword list checked both by the session loop (line 577)
and by `is_natural_language` (line 412). -/
def exit_commands : List String :=
  ["exit", "quit", "bye", "goodbye"]

/-- The `shell_commands` table of `is_natural_language`
(lines 417-425 for Windows, 442-453 otherwise). -/
def shell_commands (plat : PlatformName) : List String :=
  if plat = .Windows then
    ["dir", "cls", "type", "copy", "move", "del", "md", "rd",
     "pwd", "ls", "cat", "clear", "whoami", "date", "time",
     "ipconfig", "ping", "netstat", "nslookup", "tracert", "arp",
     "tasklist", "taskkill", "systeminfo", "hostname", "ver",
     "diskpart", "chkdsk", "format",
     "tree", "fc", "comp", "more", "sort", "find", "findstr",
     "attrib", "xcopy", "robocopy", "where", "set", "path"]
  else
    ["ls", "pwd", "clear", "whoami", "date", "cal", "uptime",
     "top", "htop", "ps", "kill", "killall", "jobs", "bg", "fg",
     "cat", "head", "tail", "less", "more", "touch", "stat",
     "find", "grep", "awk", "sed", "wc", "sort", "uniq", "diff",
     "tar", "zip", "unzip", "gzip", "gunzip", "bzip2",
     "chmod", "chown", "chgrp", "id", "groups", "passwd",
     "df", "du", "free", "mount", "umount",
     "ping", "curl", "wget", "ssh", "scp", "netstat", "ifconfig", "ip",
     "apt", "yum", "dnf", "pacman", "brew", "snap", "flatpak",
     "man", "which", "whereis", "history", "alias", "source", "export"]

/-- The `shell_starters` table of `is_natural_language`
(lines 426-440 for Windows, 454-470 otherwise). -/
def shell_starters (plat : PlatformName) : List String :=
  if plat = .Windows then
    ["cd ", "cd\\", "cd/", "dir ", "echo ", "type ",
     "copy ", "move ", "del ", "ren ", "rename ", "md ", "mkdir ",
     "rd ", "rmdir ", "attrib ", "xcopy ", "robocopy ",
     "Get-", "Set-", "New-", "Remove-", "Copy-", "Move-", "Out-",
     "Write-", "Read-", "Start-", "Stop-", "Invoke-", "Test-",
     "Select-", "Where-", "ForEach-", "Sort-", "Group-",
     "git ", "npm ", "node ", "npx ", "yarn ", "pnpm ",
     "python ", "python3 ", "py ", "pip ", "pip3 ",
     "cargo ", "rustc ", "go ", "java ", "javac ",
     "dotnet ", "nuget ",
     "curl ", "wget ", "ssh ", "scp ", "docker ", "kubectl ",
     "code ", "notepad ", "explorer ",
     "./", ".\\", "/", "\\", "~", "$", ">", ">>", "|", "&&", ";"]
  else
    ["cd ", "ls ", "ll ",
     "cat ", "head ", "tail ", "touch ", "rm ", "cp ", "mv ",
     "mkdir ", "rmdir ", "chmod ", "chown ", "ln ",
     "echo ", "grep ", "sed ", "awk ", "cut ", "tr ", "xargs ",
     "git ", "npm ", "node ", "npx ", "yarn ", "pnpm ",
     "python ", "python3 ", "pip ", "pip3 ",
     "cargo ", "rustc ", "go ", "java ", "javac ",
     "make ", "cmake ", "gcc ", "g++ ", "clang ",
     "brew ", "apt ", "apt-get ", "yum ", "dnf ", "pacman ", "snap ",
     "sudo ", "su ", "ssh ", "scp ", "curl ", "wget ",
     "docker ", "kubectl ", "aws ", "gcloud ", "az ",
     "vi ", "vim ", "nano ", "emacs ", "code ",
     "open ", "xdg-open ",
     "export ", "source ", "alias ",
     "./", "/", "~", "$", ">", ">>", "|", "&&", ";"]

/-- `is_natural_language` (lines 407-475): `true` means the input is a
natural-language request to translate, `false` means it is treated as a
literal command. -/
def is_natural_language (plat : PlatformName) (text : String) : Bool :=
  if pyStartsWith text "!" then false
  else if pyLower text ∈ exit_commands then false
  else if pyLower text ∈ (shell_commands plat).map pyLower then false
  else ! (shell_starters plat).any (fun s => pyStartsWith (pyLower text) (pyLower s))

/-- One entry of `command_history` (lines 316-319): the executed command
and its stored (truncated) output. -/
structure HistoryEntry where
  command : String
  output : String
deriving DecidableEq, Repr

/-- `MAX_HISTORY` (line 307). -/
def MAX_HISTORY : Nat := 10

/-- `MAX_CONTEXT_CHARS` (line 308). -/
def MAX_CONTEXT_CHARS : Nat := 4000

/-- `get_context_size` (lines 310-311). -/
def get_context_size (history : List HistoryEntry) : Nat :=
  (history.map (fun e => e.command.length + e.output.length)).sum

/-- The first eviction loop of `add_to_history` (lines 320-321):
`while len(command_history) > MAX_HISTORY: command_history.pop(0)`. -/
def evictOverLength : List HistoryEntry → List HistoryEntry
  | [] => []
  | e :: rest =>
    if MAX_HISTORY < (e :: rest).length then evictOverLength rest
    else e :: rest

/-- The second eviction loop of `add_to_history` (lines 322-323):
`while get_context_size() > MAX_CONTEXT_CHARS and len(command_history) > 1:
command_history.pop(0)`. -/
def evictOverSize : List HistoryEntry → List HistoryEntry
  | [] => []
  | e :: rest =>
    if MAX_CONTEXT_CHARS < get_context_size (e :: rest) ∧ 1 < (e :: rest).length then
      evictOverSize rest
    else e :: rest

/-- The stored output of a new entry (line 318):
`output[:500] if output else ""`. -/
def truncOutput (output : String) : String :=
  if output = "" then "" else pyTake output 500

/-- `add_to_history` (lines 313-323) as a pure function from the old
buffer to the new one (the `commands_run` counter is session-report
bookkeeping and is not part of the buffer state). -/
def add_to_history (history : List HistoryEntry) (command : String)
    (output : String) : List HistoryEntry :=
  evictOverSize (evictOverLength (history ++ [⟨command, truncOutput output⟩]))

/-- A history buffer built from scratch by a sequence of appends, the
only mutation path the program has (`add_to_history` is the sole writer
of `command_history`). -/
def buildHistory (ops : List (String × String)) : List HistoryEntry :=
  ops.foldl (fun acc p => add_to_history acc p.1 p.2) []

/-- The lines rendered for one history entry by `format_history`
(lines 330-335): the numbered command line, then up to 2 lines of the
stripped output when the output is nonempty. -/
def entryLines (i : Nat) (e : HistoryEntry) : List String :=
  (toString i ++ ". $ " ++ e.command) ::
    (if e.output = "" then []
     else ((pySplitOn (Char.ofNat 10) (pyStripWS e.output)).take 2).map
       (fun line => "   " ++ line))

/-- The body of the `for i, entry in enumerate(command_history[-5:], 1)`
loop of `format_history` (lines 329-335). -/
def formatEntries : Nat → List HistoryEntry → List String
  | _, [] => []
  | i, e :: rest => entryLines i e ++ formatEntries (i + 1) rest

/-- `format_history` (lines 325-336). -/
def format_history (history : List HistoryEntry) : String :=
  if history = [] then "No previous commands."
  else String.intercalate "\n"
    (formatEntries 1 (history.drop (history.length - 5)))

/-- Observable behavior of a spawned child command: how long it runs
and what it writes to the two streams.  This is the oracle standing in
for the host shell. -/
structure CmdBehavior where
  duration : Nat
  stdout : String
  stderr : String
deriving DecidableEq, Repr

/-- The timeout passed to `process.communicate` (line 490). -/
def COMMAND_TIMEOUT : Nat := 60

/-- `run_command` (lines 477-499).  On Windows the child is run with
`communicate(timeout=60)`; `subprocess.TimeoutExpired` fires exactly
when the command runs longer than the ceiling, the child is killed and
`("", "Command timed out")` is returned.  On the non-Windows branch the
child is run by `subprocess.run(cmd, shell=True, capture_output=True,
text=True)` with no `timeout` argument, so the captured streams are
returned whatever the duration. -/
def run_command (plat : PlatformName) (b : CmdBehavior) : String × String :=
  if plat = .Windows then
    if COMMAND_TIMEOUT < b.duration then ("", "Command timed out")
    else (b.stdout, b.stderr)
  else (b.stdout, b.stderr)

/-- One observed outcome of `urllib.request.urlopen` inside
`call_groq` / `call_gemini`: a parsed successful response, an
`HTTPError` with a status code and body, or a `URLError`. -/
inductive ApiResponse where
  | success (text : String)
  | httpError (code : Nat) (body : String)
  | urlError (reason : String)

/-- The classified exception a translation call can raise
(lines 210, 213, 215): `Exception("Rate limit - please wait a moment")`,
`Exception(f"API error {code}: {body[:100]}")`, or
`Exception(f"Network error: {reason}")`. -/
inductive CallError where
  | rateLimited
  | apiError (code : Nat) (body : String)
  | networkError (reason : String)
deriving DecidableEq, Repr

/-- `max_retries` (line 197). -/
def max_retries : Nat := 3

/-- Everything observable about one run of the retry loop: the final
outcome (`none` models the unreachable fall-through of the `for` loop),
the `time.sleep` waits performed between attempts, and how many
attempts were made. -/
structure CallTrace where
  result : Option (Except CallError String)
  waits : List Nat
  attempts : Nat

/-- The `for attempt in range(max_retries)` retry loop shared by
`call_groq` (lines 197-215) and `call_gemini` (lines 228-246), with the
network modelled by the `resp` oracle giving the outcome of each
attempt.  A 429 with retries left waits `(attempt + 1) * 2` seconds and
continues; the last 429 raises the rate-limit error; any other HTTP
error or a URL error raises immediately. -/
def callLoop (resp : Nat → ApiResponse) : Nat → Nat → CallTrace
  | _, 0 => ⟨none, [], 0⟩
  | attempt, fuel + 1 =>
    match resp attempt with
    | .success text => ⟨some (.ok (pyStripWS text)), [], 1⟩
    | .httpError code body =>
      if code = 429 then
        if attempt < max_retries - 1 then
          let wait_time := (attempt + 1) * 2
          let t := callLoop resp (attempt + 1) fuel
          ⟨t.result, wait_time :: t.waits, t.attempts + 1⟩
        else ⟨some (.error .rateLimited), [], 1⟩
      else ⟨some (.error (.apiError code (pyTake body 100))), [], 1⟩
    | .urlError reason => ⟨some (.error (.networkError reason)), [], 1⟩

/-- `call_groq` (lines 178-215) seen through its retry behavior; the
identical loop of `call_gemini` is covered by the same definition. -/
def call_groq (resp : Nat → ApiResponse) : CallTrace :=
  callLoop resp 0 max_retries

/-- Directory-change detection on a translated command
(lines 656-662): the fixed case-insensitive verb prefixes `cd `,
`set-location `, `chdir `, each yielding the stripped remainder of the
original command. -/
def cdPathOf (command : String) : Option String :=
  if pyStartsWith (pyLower command) "cd " then
    some (pyStripWS (pyDrop command 3))
  else if pyStartsWith (pyLower command) "set-location " then
    some (pyStripWS (pyDrop command 13))
  else if pyStartsWith (pyLower command) "chdir " then
    some (pyStripWS (pyDrop command 6))
  else none

/-- Path normalization of the translated-command directory change
(lines 665-671): strip surrounding double then single quotes, apply
`os.path.expanduser` (the `eu` parameter), and on Windows flip slashes
and apply `os.path.expandvars` (the `ev` parameter) after rewriting the
PowerShell `$env:` syntax. -/
def processCdPath (plat : PlatformName) (eu ev : String → String)
    (cd_path : String) : String :=
  let cd_path := pyStripChar (Char.ofNat 39) (pyStripChar (Char.ofNat 34) cd_path)
  let path := eu cd_path
  if plat = .Windows then
    ev (((path.replace "/" "\\").replace "$env:" "%").replace
      "%USERPROFILE" "%USERPROFILE%")
  else path

/-- Path normalization of a directly typed `cd ` command (lines
583-585): `os.path.expanduser(user_input[3:].strip())`, with `/`
rewritten to `\` on Windows.  No quote stripping and no
environment-variable expansion happen on this path. -/
def directCdPath (plat : PlatformName) (eu : String → String)
    (user_input : String) : String :=
  let path := eu (pyStripWS (pyDrop user_input 3))
  if plat = .Windows then path.replace "/" "\\" else path

/-- What the loop does with a successfully translated command
(lines 654-682): an in-process directory change when one of the cd
prefixes matches with a nonempty remainder, otherwise a subprocess
execution. -/
inductive TAction where
  | chdirTo (path : String)
  | execCmd (cmd : String)
deriving DecidableEq, Repr

/-- The directory-change-or-exec branch applied to a translated command
(lines 656-682).  The dispatch `if cd_path:` (line 664) is Python
truthiness: it takes the in-process branch only when `cd_path` was both
assigned and nonempty, so a cd-prefixed command whose remainder strips
to the empty string falls through to the subprocess execution. -/
def translatedAction (plat : PlatformName) (eu ev : String → String)
    (command : String) : TAction :=
  match cdPathOf command with
  | some p =>
    if p = "" then .execCmd command
    else .chdirTo (processCdPath plat eu ev p)
  | none => .execCmd command

/-- The `try: os.chdir(path) except ...` step (lines 672-675 and
586-589): `valid` is the oracle for whether `os.chdir` succeeds on the
path.  Returns the resulting working directory and whether a local
`cd:` error message was printed; a failed change leaves the working
directory untouched. -/
def applyChdir (valid : String → Bool) (cwd path : String) : String × Bool :=
  if valid path then (path, false) else (cwd, true)

/-- The externally visible action one iteration of the `while True`
session loop (lines 566-697) takes on its input line. -/
inductive IterAction where
  | skip
  | exitSession
  | chdirDirect (path : String)
  | chdirHome
  | builtinAuth
  | builtinVersion
  | builtinUninstall
  | builtinHelp
  | builtinCredits
  | execBang (cmd : String)
  | execLiteral (cmd : String)
  | chdirTranslated (path : String)
  | execTranslated (cmd : String)
  | translateFailed (e : CallError)
deriving DecidableEq, Repr

/-- Trace of one loop iteration: the action taken, the translated
command displayed by `print(f"→ {command}")` (line 652) if any, and the
number of `input()` confirmation reads performed between translation
success and execution of the translated command.  The source contains
no `input()` call between line 650 (translation) and lines 664-682
(execution), which the field records. -/
structure LoopResult where
  action : IterAction
  displayed : Option String
  confirmReads : Nat
deriving DecidableEq, Repr

/-- One iteration of the session loop (lines 566-697) on the raw input
line `raw`, with `os.path.expanduser` / `os.path.expandvars` as `eu` /
`ev` and the whole translation stack (`get_command` down to the
network) as the oracle `tr`.  The branch order is exactly that of the
source: empty input, exit keywords, `cd `/`cd`, the five `!` builtins,
`!`-escaped literal execution, classifier-literal execution, and
finally the translate flow, which displays the translated command and
immediately runs it through the directory-change-or-exec branch. -/
def loopIter (plat : PlatformName) (eu ev : String → String)
    (tr : String → Except CallError String) (raw : String) : LoopResult :=
  if pyStripWS raw = "" then ⟨.skip, none, 0⟩
  else if pyLower (pyStripWS raw) ∈ exit_commands then ⟨.exitSession, none, 0⟩
  else if pyStartsWith (pyStripWS raw) "cd " then
    ⟨.chdirDirect (directCdPath plat eu (pyStripWS raw)), none, 0⟩
  else if pyStripWS raw = "cd" then ⟨.chdirHome, none, 0⟩
  else if pyStripWS raw = "!auth" then ⟨.builtinAuth, none, 0⟩
  else if pyStripWS raw = "!version" then ⟨.builtinVersion, none, 0⟩
  else if pyStripWS raw = "!uninstall" then ⟨.builtinUninstall, none, 0⟩
  else if pyStripWS raw = "!help" then ⟨.builtinHelp, none, 0⟩
  else if pyStripWS raw = "!credits" then ⟨.builtinCredits, none, 0⟩
  else if pyStartsWith (pyStripWS raw) "!" then
    if pyDrop (pyStripWS raw) 1 = "" then ⟨.skip, none, 0⟩
    else ⟨.execBang (pyDrop (pyStripWS raw) 1), none, 0⟩
  else if is_natural_language plat (pyStripWS raw) = false then
    ⟨.execLiteral (pyStripWS raw), none, 0⟩
  else
    match tr (pyStripWS raw) with
    | .ok command =>
      match translatedAction plat eu ev command with
      | .chdirTo p => ⟨.chdirTranslated p, some command, 0⟩
      | .execCmd c => ⟨.execTranslated c, some command, 0⟩
    | .error e => ⟨.translateFailed e, none, 0⟩


/-! ## Claim theorems -/

/-- Claim C10: every input beginning with the shell-escape prefix `!`
is classified not-natural-language (literal) by `is_natural_language`
itself, immediately and independently of the exit keywords and the
platform tables. -/
theorem c10_confirmed (plat : PlatformName) (text : String)
    (h : pyStartsWith text "!" = true) :
    is_natural_language plat text = false := by
  simp [is_natural_language, h]

theorem c10_witness : is_natural_language .Windows "!dir" = false :=
  c10_confirmed .Windows "!dir" (by decide)

/-- Claim C8: every command name in the active platform's literal
command table is classified literal in any letter-case variation (any
`v` whose lowering agrees with the lowering of a table entry). -/
theorem c8_confirmed (plat : PlatformName) (c v : String)
    (hc : c ∈ shell_commands plat) (hv : pyLower v = pyLower c) :
    is_natural_language plat v = false := by
  by_cases hb : pyStartsWith v "!" = true
  · simp [is_natural_language, hb]
  · by_cases he : pyLower v ∈ exit_commands
    · simp [is_natural_language, hb, he]
    · have hm : pyLower v ∈ (shell_commands plat).map pyLower := by
        rw [hv]
        exact List.mem_map_of_mem pyLower hc
      simp [is_natural_language, hb, he, hm]

theorem c8_witness : is_natural_language .Linux "LS" = false :=
  c8_confirmed .Linux "ls" "LS" (by decide) (by decide)

/-- Claim C2, counterexample: on the exit keyword `exit` the classifier
returns `false` (literal), not `true` (natural language) as the claim
states. -/
theorem c2_counterexample : is_natural_language .Linux "exit" = false := by
  decide

/-- Claim C2, amended: `is_natural_language` returns `false` (literal)
on every case variation of an exit keyword; the exit keywords are
routed to the exit path not by the classifier but by the session loop,
whose exit check (line 577) precedes classification. -/
theorem c2_amended :
    (∀ (plat : PlatformName) (v : String),
        pyLower v ∈ exit_commands → is_natural_language plat v = false) ∧
    (∀ (plat : PlatformName) (eu ev : String → String)
        (tr : String → Except CallError String) (raw : String),
        pyLower (pyStripWS raw) ∈ exit_commands →
        (loopIter plat eu ev tr raw).action = .exitSession) := by
  constructor
  · intro plat v hv
    by_cases hb : pyStartsWith v "!" = true
    · simp [is_natural_language, hb]
    · simp [is_natural_language, hb, hv]
  · intro plat eu ev tr raw hmem
    have hne : ¬ (pyStripWS raw = "") := by
      intro he
      rw [he] at hmem
      exact absurd hmem (by decide)
    simp [loopIter, hne, hmem]

theorem c2_amended_witness :
    is_natural_language .Linux "EXIT" = false ∧
    (loopIter .Linux id id (fun _ => Except.ok "") "quit").action = .exitSession :=
  ⟨c2_amended.1 .Linux "EXIT" (by decide),
   c2_amended.2 .Linux id id (fun _ => Except.ok "") "quit" (by decide)⟩

/-- Claim C7, counterexample: `git status` matches no entry of the
POSIX literal command-name table and is not an exit keyword, yet the
classifier returns literal (`false`), because of the starter-prefix
rule the claim omits. -/
theorem c7_counterexample :
    pyLower "git status" ∉ (shell_commands .Linux).map pyLower ∧
    pyLower "git status" ∉ exit_commands ∧
    is_natural_language .Linux "git status" = false := by
  decide

/-- Claim C7, amended: text that does not begin with `!`, is not an
exit keyword, matches no command-name table entry case-insensitively,
and matches no starter-prefix table entry case-insensitively, is
classified natural language. -/
theorem c7_amended (plat : PlatformName) (text : String)
    (h1 : pyStartsWith text "!" = false)
    (h2 : pyLower text ∉ exit_commands)
    (h3 : pyLower text ∉ (shell_commands plat).map pyLower)
    (h4 : (shell_starters plat).any
      (fun s => pyStartsWith (pyLower text) (pyLower s)) = false) :
    is_natural_language plat text = true := by
  simp [is_natural_language, h1, h2, h3, h4]

theorem c7_amended_witness :
    is_natural_language .Linux "please list my files" = true :=
  c7_amended .Linux "please list my files"
    (by decide) (by decide) (by decide) (by decide)

/-- Claim C4, counterexample: on the POSIX branch (`subprocess.run`
without a `timeout` argument, line 493) no ceiling applies — a command
running 100 time units is not terminated and its output is returned,
not the timeout message. -/
theorem c4_counterexample :
    COMMAND_TIMEOUT < 100 ∧
    run_command .Linux ⟨100, "late output", ""⟩ = ("late output", "") ∧
    run_command .Linux ⟨100, "late output", ""⟩ ≠ ("", "Command timed out") := by
  decide

/-- Claim C4, amended: the fixed 60-unit ceiling applies only on the
Windows/PowerShell dialect, where an over-deadline command is killed
and reported as `Command timed out` on the stderr channel; on the
non-Windows dialect the captured streams are returned whatever the
duration, and within the deadline every dialect returns the captured
streams. -/
theorem c4_amended :
    (∀ b : CmdBehavior, COMMAND_TIMEOUT < b.duration →
        run_command .Windows b = ("", "Command timed out")) ∧
    (∀ (plat : PlatformName) (b : CmdBehavior), plat ≠ .Windows →
        run_command plat b = (b.stdout, b.stderr)) ∧
    (∀ (plat : PlatformName) (b : CmdBehavior), b.duration ≤ COMMAND_TIMEOUT →
        run_command plat b = (b.stdout, b.stderr)) := by
  refine ⟨?_, ?_, ?_⟩
  · intro b h
    simp [run_command, h]
  · intro plat b h
    simp [run_command, h]
  · intro plat b h
    have h2 := Nat.not_lt.mpr h
    unfold run_command
    split <;> simp [h2]

theorem c4_amended_witness :
    run_command .Windows ⟨100, "x", "y"⟩ = ("", "Command timed out") ∧
    run_command .Linux ⟨100, "a", "b"⟩ = ("a", "b") ∧
    run_command .Windows ⟨60, "a", "b"⟩ = ("a", "b") :=
  ⟨c4_amended.1 ⟨100, "x", "y"⟩ (by decide),
   c4_amended.2.1 .Linux ⟨100, "a", "b"⟩ (by decide),
   c4_amended.2.2 .Windows ⟨60, "a", "b"⟩ (by decide)⟩

/-! ## Context-buffer lemmas -/

lemma evictOverLength_length_le (h : List HistoryEntry) :
    (evictOverLength h).length ≤ MAX_HISTORY := by
  induction h with
  | nil => simp [evictOverLength, MAX_HISTORY]
  | cons e rest ih =>
    simp only [evictOverLength]
    split
    · exact ih
    · omega

lemma evictOverLength_ne_nil (h : List HistoryEntry) (hne : h ≠ []) :
    evictOverLength h ≠ [] := by
  induction h with
  | nil => exact absurd rfl hne
  | cons e rest ih =>
    simp only [evictOverLength]
    split
    · rename_i hlt
      apply ih
      intro hr
      rw [hr] at hlt
      simp [MAX_HISTORY] at hlt
    · exact List.cons_ne_nil e rest

lemma evictOverSize_length_le (h : List HistoryEntry) :
    (evictOverSize h).length ≤ h.length := by
  induction h with
  | nil => simp [evictOverSize]
  | cons e rest ih =>
    simp only [evictOverSize]
    split
    · simp only [List.length_cons]
      omega
    · exact Nat.le_refl _

lemma evictOverSize_ne_nil (h : List HistoryEntry) (hne : h ≠ []) :
    evictOverSize h ≠ [] := by
  induction h with
  | nil => exact absurd rfl hne
  | cons e rest ih =>
    simp only [evictOverSize]
    split
    · rename_i hc
      apply ih
      intro hr
      rw [hr] at hc
      simp at hc
    · exact List.cons_ne_nil e rest

lemma evictOverSize_size_ok (h : List HistoryEntry) :
    get_context_size (evictOverSize h) ≤ MAX_CONTEXT_CHARS ∨
      (evictOverSize h).length ≤ 1 := by
  induction h with
  | nil => right; simp [evictOverSize]
  | cons e rest ih =>
    simp only [evictOverSize]
    split
    · exact ih
    · rename_i hc
      rw [not_and_or] at hc
      rcases hc with hc | hc
      · left; omega
      · right; omega

lemma evictOverLength_suffix (h : List HistoryEntry) :
    evictOverLength h <:+ h := by
  induction h with
  | nil => simp [evictOverLength]
  | cons e rest ih =>
    simp only [evictOverLength]
    split
    · exact ih.trans (List.suffix_cons e rest)
    · exact List.suffix_refl _

lemma evictOverSize_suffix (h : List HistoryEntry) :
    evictOverSize h <:+ h := by
  induction h with
  | nil => simp [evictOverSize]
  | cons e rest ih =>
    simp only [evictOverSize]
    split
    · exact ih.trans (List.suffix_cons e rest)
    · exact List.suffix_refl _

lemma truncOutput_length (o : String) : (truncOutput o).length ≤ 500 := by
  unfold truncOutput
  split
  · simp
  · simp only [pyTake, String.length]
    rw [List.length_take]
    omega

lemma add_to_history_outputs {h : List HistoryEntry} {c o : String}
    (hb : ∀ e ∈ h, e.output.length ≤ 500) :
    ∀ e ∈ add_to_history h c o, e.output.length ≤ 500 := by
  intro e he
  unfold add_to_history at he
  have h1 := (evictOverSize_suffix _).subset he
  have h2 := (evictOverLength_suffix _).subset h1
  rcases List.mem_append.mp h2 with h3 | h3
  · exact hb e h3
  · rw [List.mem_singleton] at h3
    subst h3
    exact truncOutput_length o

lemma buildHistory_outputs_aux (ops : List (String × String)) :
    ∀ acc : List HistoryEntry, (∀ e ∈ acc, e.output.length ≤ 500) →
      ∀ e ∈ ops.foldl (fun acc p => add_to_history acc p.1 p.2) acc,
        e.output.length ≤ 500 := by
  induction ops with
  | nil => intro acc hacc; simpa using hacc
  | cons p ops ih =>
    intro acc hacc
    simp only [List.foldl_cons]
    exact ih _ (add_to_history_outputs hacc)

lemma buildHistory_outputs (ops : List (String × String)) :
    ∀ e ∈ buildHistory ops, e.output.length ≤ 500 :=
  buildHistory_outputs_aux ops [] (by simp)

/-- Claim C6: after any append to a buffer built by any sequence of
prior appends, the buffer holds at most 10 entries, its total character
mass is at most 4000 unless exactly one entry remains, every stored
output is at most 500 characters, and the buffer is never evicted down
to zero entries. -/
theorem c6_confirmed (ops : List (String × String)) (c o : String) :
    (add_to_history (buildHistory ops) c o).length ≤ MAX_HISTORY ∧
    (get_context_size (add_to_history (buildHistory ops) c o) ≤ MAX_CONTEXT_CHARS ∨
      (add_to_history (buildHistory ops) c o).length = 1) ∧
    (add_to_history (buildHistory ops) c o).all
      (fun e => decide (e.output.length ≤ 500)) = true ∧
    1 ≤ (add_to_history (buildHistory ops) c o).length := by
  have hne : add_to_history (buildHistory ops) c o ≠ [] := by
    unfold add_to_history
    exact evictOverSize_ne_nil _ (evictOverLength_ne_nil _ (by simp))
  have hlen1 : 1 ≤ (add_to_history (buildHistory ops) c o).length := by
    have := List.length_pos.mpr hne
    omega
  refine ⟨?_, ?_, ?_, hlen1⟩
  · unfold add_to_history
    exact Nat.le_trans (evictOverSize_length_le _) (evictOverLength_length_le _)
  · have hsz : get_context_size (add_to_history (buildHistory ops) c o) ≤ MAX_CONTEXT_CHARS ∨
        (add_to_history (buildHistory ops) c o).length ≤ 1 := by
      unfold add_to_history
      exact evictOverSize_size_ok _
    rcases hsz with hsz | hsz
    · exact Or.inl hsz
    · exact Or.inr (by omega)
  · rw [List.all_eq_true]
    intro e he
    rw [decide_eq_true_eq]
    exact add_to_history_outputs (buildHistory_outputs ops) e he

/-- Claim C9: the snapshot of an empty buffer is the fixed sentinel
string; the rendering depends only on the last 5 entries (so at most 5
are shown, in order, numbered from 1); each entry contributes its
numbered command line plus at most 2 output lines; and after a single
`append("ls", "a.txt\nb.txt")` the snapshot is exactly `1. $ ls`
followed by the two output lines. -/
theorem c9_confirmed :
    format_history [] = "No previous commands." ∧
    (∀ h : List HistoryEntry,
        format_history h = format_history (h.drop (h.length - 5))) ∧
    (∀ (i : Nat) (e : HistoryEntry), (entryLines i e).length ≤ 3) ∧
    format_history (add_to_history [] "ls" "a.txt\nb.txt") =
      "1. $ ls\n   a.txt\n   b.txt" := by
  refine ⟨rfl, ?_, ?_, by decide⟩
  · intro h
    by_cases hh : h = []
    · subst hh; simp
    · have hlenpos : h.length ≠ 0 := by
        intro h0
        exact hh (List.length_eq_zero.mp h0)
      have hd : h.drop (h.length - 5) ≠ [] := by
        rw [Ne, List.drop_eq_nil_iff]
        omega
      rw [format_history, format_history, if_neg hh, if_neg hd,
        List.length_drop, List.drop_drop]
      have harith : h.length - 5 + (h.length - (h.length - 5) - 5) = h.length - 5 := by
        omega
      rw [harith]
  · intro i e
    simp only [entryLines, List.length_cons]
    split
    · simp
    · simp only [List.length_map, List.length_take]
      omega

/-! ## Session-loop inversion lemmas -/

lemma loopIter_error_inv (plat : PlatformName) (eu ev : String → String)
    (tr : String → Except CallError String) (raw : String) (e : CallError)
    (htr : tr (pyStripWS raw) = Except.error e) :
    ∀ c p, (loopIter plat eu ev tr raw).action ≠ .execTranslated c ∧
      (loopIter plat eu ev tr raw).action ≠ .chdirTranslated p := by
  intro c p
  unfold loopIter
  by_cases h1 : pyStripWS raw = ""
  · rw [if_pos h1]; simp
  rw [if_neg h1]
  by_cases h2 : pyLower (pyStripWS raw) ∈ exit_commands
  · rw [if_pos h2]; simp
  rw [if_neg h2]
  by_cases h3 : pyStartsWith (pyStripWS raw) "cd " = true
  · rw [if_pos h3]; simp
  rw [if_neg h3]
  by_cases h4 : pyStripWS raw = "cd"
  · rw [if_pos h4]; simp
  rw [if_neg h4]
  by_cases h5 : pyStripWS raw = "!auth"
  · rw [if_pos h5]; simp
  rw [if_neg h5]
  by_cases h6 : pyStripWS raw = "!version"
  · rw [if_pos h6]; simp
  rw [if_neg h6]
  by_cases h7 : pyStripWS raw = "!uninstall"
  · rw [if_pos h7]; simp
  rw [if_neg h7]
  by_cases h8 : pyStripWS raw = "!help"
  · rw [if_pos h8]; simp
  rw [if_neg h8]
  by_cases h9 : pyStripWS raw = "!credits"
  · rw [if_pos h9]; simp
  rw [if_neg h9]
  by_cases h10 : pyStartsWith (pyStripWS raw) "!" = true
  · rw [if_pos h10]
    by_cases h10b : pyDrop (pyStripWS raw) 1 = ""
    · rw [if_pos h10b]; simp
    · rw [if_neg h10b]; simp
  rw [if_neg h10]
  by_cases h11 : is_natural_language plat (pyStripWS raw) = false
  · rw [if_pos h11]; simp
  rw [if_neg h11, htr]
  simp

lemma loopIter_ok_out (plat : PlatformName) (eu ev : String → String)
    (tr : String → Except CallError String) (raw c : String)
    (h1 : pyStripWS raw ≠ "")
    (h2 : pyLower (pyStripWS raw) ∉ exit_commands)
    (h3 : pyStartsWith (pyStripWS raw) "cd " = false)
    (h4 : pyStripWS raw ≠ "cd")
    (h5 : pyStartsWith (pyStripWS raw) "!" = false)
    (h6 : is_natural_language plat (pyStripWS raw) = true)
    (htr : tr (pyStripWS raw) = Except.ok c) :
    loopIter plat eu ev tr raw =
      ⟨(match translatedAction plat eu ev c with
        | .chdirTo p => IterAction.chdirTranslated p
        | .execCmd q => IterAction.execTranslated q), some c, 0⟩ := by
  have h3n : ¬ (pyStartsWith (pyStripWS raw) "cd " = true) := by simp [h3]
  have h5n : ¬ (pyStartsWith (pyStripWS raw) "!" = true) := by simp [h5]
  have h6n : ¬ (is_natural_language plat (pyStripWS raw) = false) := by simp [h6]
  have ha : pyStripWS raw ≠ "!auth" := by
    intro he; rw [he] at h5; exact absurd h5 (by decide)
  have hv : pyStripWS raw ≠ "!version" := by
    intro he; rw [he] at h5; exact absurd h5 (by decide)
  have hu : pyStripWS raw ≠ "!uninstall" := by
    intro he; rw [he] at h5; exact absurd h5 (by decide)
  have hh : pyStripWS raw ≠ "!help" := by
    intro he; rw [he] at h5; exact absurd h5 (by decide)
  have hcr : pyStripWS raw ≠ "!credits" := by
    intro he; rw [he] at h5; exact absurd h5 (by decide)
  unfold loopIter
  rw [if_neg h1, if_neg h2, if_neg h3n, if_neg h4, if_neg ha, if_neg hv,
    if_neg hu, if_neg hh, if_neg hcr, if_neg h5n, if_neg h6n, htr]
  cases htA : translatedAction plat eu ev c <;> simp [htA]

lemma loopIter_execTranslated_inv (plat : PlatformName) (eu ev : String → String)
    (tr : String → Except CallError String) (raw q : String)
    (heq : (loopIter plat eu ev tr raw).action = .execTranslated q) :
    tr (pyStripWS raw) = Except.ok q ∧
      (cdPathOf q = none ∨ cdPathOf q = some "") := by
  unfold loopIter at heq
  by_cases h1 : pyStripWS raw = ""
  · rw [if_pos h1] at heq; simp at heq
  rw [if_neg h1] at heq
  by_cases h2 : pyLower (pyStripWS raw) ∈ exit_commands
  · rw [if_pos h2] at heq; simp at heq
  rw [if_neg h2] at heq
  by_cases h3 : pyStartsWith (pyStripWS raw) "cd " = true
  · rw [if_pos h3] at heq; simp at heq
  rw [if_neg h3] at heq
  by_cases h4 : pyStripWS raw = "cd"
  · rw [if_pos h4] at heq; simp at heq
  rw [if_neg h4] at heq
  by_cases h5 : pyStripWS raw = "!auth"
  · rw [if_pos h5] at heq; simp at heq
  rw [if_neg h5] at heq
  by_cases h6 : pyStripWS raw = "!version"
  · rw [if_pos h6] at heq; simp at heq
  rw [if_neg h6] at heq
  by_cases h7 : pyStripWS raw = "!uninstall"
  · rw [if_pos h7] at heq; simp at heq
  rw [if_neg h7] at heq
  by_cases h8 : pyStripWS raw = "!help"
  · rw [if_pos h8] at heq; simp at heq
  rw [if_neg h8] at heq
  by_cases h9 : pyStripWS raw = "!credits"
  · rw [if_pos h9] at heq; simp at heq
  rw [if_neg h9] at heq
  by_cases h10 : pyStartsWith (pyStripWS raw) "!" = true
  · rw [if_pos h10] at heq
    by_cases h10b : pyDrop (pyStripWS raw) 1 = ""
    · rw [if_pos h10b] at heq; simp at heq
    · rw [if_neg h10b] at heq; simp at heq
  rw [if_neg h10] at heq
  by_cases h11 : is_natural_language plat (pyStripWS raw) = false
  · rw [if_pos h11] at heq; simp at heq
  rw [if_neg h11] at heq
  cases hres : tr (pyStripWS raw) with
  | ok val =>
    rw [hres] at heq
    cases hcd : cdPathOf val with
    | some p =>
      by_cases hp : p = ""
      · subst hp
        simp [translatedAction, hcd] at heq
        subst heq
        exact ⟨rfl, Or.inr hcd⟩
      · simp [translatedAction, hcd, hp] at heq
    | none =>
      simp [translatedAction, hcd] at heq
      subst heq
      exact ⟨rfl, Or.inl hcd⟩
  | error err => rw [hres] at heq; simp at heq

/-- Claim C5: when every attempt fails with HTTP 429 the retry loop
makes exactly 3 attempts with the strictly increasing backoff waits
`[1*2, 2*2]` between them and surfaces the rate-limit error; a non-429
HTTP error or a network error on the first attempt propagates
immediately after 1 attempt with no waits; and when the translation
stack fails, the loop iteration executes no translated command. -/
theorem c5_confirmed :
    (∀ (resp : Nat → ApiResponse) (bodies : Nat → String),
        (∀ n, n < max_retries → resp n = .httpError 429 (bodies n)) →
        call_groq resp = ⟨some (.error .rateLimited), [2, 4], 3⟩ ∧
        List.Chain' (· < ·) (call_groq resp).waits) ∧
    (∀ (resp : Nat → ApiResponse) (code : Nat) (body : String),
        resp 0 = .httpError code body → code ≠ 429 →
        call_groq resp = ⟨some (.error (.apiError code (pyTake body 100))), [], 1⟩) ∧
    (∀ (resp : Nat → ApiResponse) (reason : String),
        resp 0 = .urlError reason →
        call_groq resp = ⟨some (.error (.networkError reason)), [], 1⟩) ∧
    (∀ (plat : PlatformName) (eu ev : String → String)
        (tr : String → Except CallError String) (raw : String) (e : CallError),
        tr (pyStripWS raw) = Except.error e →
        ∀ c p, (loopIter plat eu ev tr raw).action ≠ .execTranslated c ∧
          (loopIter plat eu ev tr raw).action ≠ .chdirTranslated p) := by
  refine ⟨?_, ?_, ?_, ?_⟩
  · intro resp bodies hresp
    have h0 := hresp 0 (by decide)
    have h1 := hresp 1 (by decide)
    have h2 := hresp 2 (by decide)
    have key : call_groq resp = ⟨some (.error .rateLimited), [2, 4], 3⟩ := by
      simp [call_groq, callLoop, max_retries, h0, h1, h2]
    refine ⟨key, ?_⟩
    rw [key]
    exact List.chain'_cons.mpr ⟨by norm_num, List.chain'_singleton 4⟩
  · intro resp code body h0 hne
    simp [call_groq, callLoop, max_retries, h0, hne]
  · intro resp reason h0
    simp [call_groq, callLoop, max_retries, h0]
  · intro plat eu ev tr raw e htr c p
    exact loopIter_error_inv plat eu ev tr raw e htr c p

theorem c5_witness :
    call_groq (fun _ => ApiResponse.httpError 429 "Too Many Requests") =
      ⟨some (.error .rateLimited), [2, 4], 3⟩ ∧
    call_groq (fun _ => ApiResponse.httpError 500 "boom") =
      ⟨some (.error (.apiError 500 (pyTake "boom" 100))), [], 1⟩ ∧
    call_groq (fun _ => ApiResponse.urlError "dns") =
      ⟨some (.error (.networkError "dns")), [], 1⟩ ∧
    (loopIter .Linux id id (fun _ => Except.error CallError.rateLimited)
        "show my files").action ≠ IterAction.execTranslated "ls" :=
  ⟨(c5_confirmed.1 (fun _ => ApiResponse.httpError 429 "Too Many Requests")
      (fun _ => "Too Many Requests") (fun _ _ => rfl)).1,
   c5_confirmed.2.1 (fun _ => ApiResponse.httpError 500 "boom") 500 "boom" rfl
     (by decide),
   c5_confirmed.2.2.1 (fun _ => ApiResponse.urlError "dns") "dns" rfl,
   (c5_confirmed.2.2.2 .Linux id id (fun _ => Except.error CallError.rateLimited)
     "show my files" CallError.rateLimited rfl "ls" "p").1⟩

/-- Claim C1, counterexample: a translated command is executed with
zero confirmation reads — on input `delete the junk folder` with the
translator returning `rm -rf /tmp/junk`, the very same iteration
executes the command (`execTranslated`) although no confirmation
`input()` was performed (`confirmReads = 0`), refuting "never executed
without a prior confirmation gesture". -/
theorem c1_counterexample :
    (loopIter .Linux id id (fun _ => Except.ok "rm -rf /tmp/junk")
        "delete the junk folder").action = .execTranslated "rm -rf /tmp/junk" ∧
    (loopIter .Linux id id (fun _ => Except.ok "rm -rf /tmp/junk")
        "delete the junk folder").confirmReads = 0 := by
  decide

/-- Claim C1, amended: when an input line reaches the translate flow
and the Translator Adapter succeeds with command `c`, the loop displays
`c` and immediately auto-executes it through the same
directory-change-or-exec branch as direct execution, with no
confirmation step (`confirmReads = 0`) in between. -/
theorem c1_amended (plat : PlatformName) (eu ev : String → String)
    (tr : String → Except CallError String) (raw c : String)
    (h1 : pyStripWS raw ≠ "")
    (h2 : pyLower (pyStripWS raw) ∉ exit_commands)
    (h3 : pyStartsWith (pyStripWS raw) "cd " = false)
    (h4 : pyStripWS raw ≠ "cd")
    (h5 : pyStartsWith (pyStripWS raw) "!" = false)
    (h6 : is_natural_language plat (pyStripWS raw) = true)
    (htr : tr (pyStripWS raw) = Except.ok c) :
    loopIter plat eu ev tr raw =
      ⟨(match translatedAction plat eu ev c with
        | .chdirTo p => IterAction.chdirTranslated p
        | .execCmd q => IterAction.execTranslated q), some c, 0⟩ :=
  loopIter_ok_out plat eu ev tr raw c h1 h2 h3 h4 h5 h6 htr

theorem c1_amended_witness :
    loopIter .Linux id id (fun _ => Except.ok "ls") "show my files" =
      ⟨(match translatedAction .Linux id id "ls" with
        | .chdirTo p => IterAction.chdirTranslated p
        | .execCmd q => IterAction.execTranslated q), some "ls", 0⟩ :=
  c1_amended .Linux id id (fun _ => Except.ok "ls") "show my files" "ls"
    (by decide) (by decide) (by decide) (by decide) (by decide) (by decide) rfl

/-- Claim C3, counterexample: `Set-Location C:\Users` is a
directory-change command by the claim's fixed verb prefixes
(`cdPathOf` is `some`), yet typed directly on Windows it is classified
literal (the `Set-` starter) and handed to the subprocess executor
(`execLiteral`), never to the in-process directory change. -/
theorem c3_counterexample :
    (cdPathOf "Set-Location C:\\Users").isSome = true ∧
    (loopIter .Windows id id (fun _ => Except.ok "") "Set-Location C:\\Users").action =
      .execLiteral "Set-Location C:\\Users" := by
  decide

/-- Claim C3, amended: a directory-change command produced by
translation (prefixes `cd`, `Set-Location`, `chdir`, case-insensitive)
whose stripped path remainder is nonempty is always handled by the
in-process branch — quote-stripped, home-expanded, env-expanded on
Windows — and never by the translated subprocess execution; a
cd-prefixed command whose remainder strips to empty fails Python's
`if cd_path:` truthiness and is executed through the subprocess; direct
user input is handled in-process only when it starts with `cd `; and a
failed change reports a local error and leaves the working directory
unchanged. -/
theorem c3_amended :
    (∀ (plat : PlatformName) (eu ev : String → String) (c p : String),
        cdPathOf c = some p → p ≠ "" →
        translatedAction plat eu ev c = .chdirTo (processCdPath plat eu ev p) ∧
        ∀ q, translatedAction plat eu ev c ≠ .execCmd q) ∧
    (∀ (plat : PlatformName) (eu ev : String → String)
        (tr : String → Except CallError String) (raw c p : String),
        tr (pyStripWS raw) = Except.ok c → cdPathOf c = some p → p ≠ "" →
        ∀ q, (loopIter plat eu ev tr raw).action ≠ IterAction.execTranslated q) ∧
    (∀ (plat : PlatformName) (eu ev : String → String)
        (tr : String → Except CallError String) (raw : String),
        pyStripWS raw ≠ "" → pyLower (pyStripWS raw) ∉ exit_commands →
        pyStartsWith (pyStripWS raw) "cd " = true →
        (loopIter plat eu ev tr raw).action =
          .chdirDirect (directCdPath plat eu (pyStripWS raw))) ∧
    (∀ (valid : String → Bool) (cwd path : String),
        valid path = false → applyChdir valid cwd path = (cwd, true)) ∧
    (∀ (plat : PlatformName) (eu ev : String → String) (c : String),
        cdPathOf c = some "" →
        translatedAction plat eu ev c = .execCmd c) := by
  refine ⟨?_, ?_, ?_, ?_, ?_⟩
  · intro plat eu ev c p hp hne
    refine ⟨by simp [translatedAction, hp, hne], ?_⟩
    intro q hq
    simp [translatedAction, hp, hne] at hq
  · intro plat eu ev tr raw c p htr hcd hne q heq
    obtain ⟨hok, hdisj⟩ := loopIter_execTranslated_inv plat eu ev tr raw q heq
    rw [htr] at hok
    injection hok with hcq
    subst hcq
    rcases hdisj with h | h
    · rw [h] at hcd
      exact Option.noConfusion hcd
    · rw [h] at hcd
      injection hcd with hpe
      exact hne hpe.symm
  · intro plat eu ev tr raw hn hm hs
    simp [loopIter, hn, hm, hs]
  · intro valid cwd path h
    simp [applyChdir, h]
  · intro plat eu ev c h
    simp [translatedAction, h]

theorem c3_amended_witness :
    translatedAction .Linux id id "cd \"/tmp/my dir\"" = .chdirTo "/tmp/my dir" ∧
    (loopIter .Windows id id (fun _ => Except.ok "Set-Location C:\\Users")
        "open the users folder").action ≠ IterAction.execTranslated "foo" ∧
    (loopIter .Linux id id (fun _ => Except.ok "") "cd /tmp").action =
      .chdirDirect "/tmp" ∧
    applyChdir (fun _ => false) "/home/u" "/does/not/exist" = ("/home/u", true) ∧
    translatedAction .Linux id id "cd " = .execCmd "cd " := by
  refine ⟨?_, ?_, ?_, ?_, ?_⟩
  · have h := (c3_amended.1 .Linux id id "cd \"/tmp/my dir\"" "\"/tmp/my dir\""
      (by decide) (by decide)).1
    rw [h]
    decide
  · exact c3_amended.2.1 .Windows id id
      (fun _ => Except.ok "Set-Location C:\\Users") "open the users folder"
      "Set-Location C:\\Users" "C:\\Users" rfl (by decide) (by decide) "foo"
  · have h := c3_amended.2.2.1 .Linux id id (fun _ => Except.ok "") "cd /tmp"
      (by decide) (by decide) (by decide)
    rw [h]
    decide
  · exact c3_amended.2.2.2.1 (fun _ => false) "/home/u" "/does/not/exist" rfl
  · exact c3_amended.2.2.2.2 .Linux id id "cd " (by decide)
